import Mathlib

/-!
Verification of the traffic anomaly detection application (`src/app.py`).

The repository consists of a single orchestration script `app.py` which
loads the analysis functions from an external notebook
(`anamoly_backend.ipynb`, not part of the repository) and wires them into
a pipeline: load → aggregate → series detection → packet detection →
categorization → report, with error display and temp-file cleanup around
it.  The orchestration layer (pipeline order, output directories, the
catch-all error handler, the `finally` cleanup, the notebook loader) is
embedded from `app.py`; the analysis functions themselves are modelled
from the specification, since their code is not in the repository.
-/

namespace TrafficApp

/-! ## Data model

A `Record` is one parsed row of the uploaded CSV: the required columns are
`Time, Length, Source, Destination, Protocol` (app.py line 143 and the
sample data at lines 155-161; `Time` and `Length` numeric, `Protocol` a
numeric code). -/

structure Record where
  time : Nat
  len : Nat
  source : String
  destination : String
  protocol : Nat
deriving Repr, DecidableEq

/-! ## Traffic aggregator -/

/-- Bucket widths in seconds for the three granularities. -/
def minute_width : Nat := 60

def hour_width : Nat := 3600

def day_width : Nat := 86400

/-- Modelled from the spec: the aggregator "groups records by
floor(timestamp / window_size(g))" (spec 4.2); the notebook code holding
`generate_traffic_analysis` is not in the repository. -/
def bucketKey (w : Nat) (r : Record) : Nat := r.time / w

/-- A `TimeBucket`: a window key and the count of records in that window. -/
structure Bucket where
  key : Nat
  count : Nat
deriving Repr, DecidableEq

/-- Modelled from the spec: one row per distinct window that has at least
one record, counting the records whose timestamp falls in the window
(spec 4.2); no zero-filling of empty windows. -/
def bucketize (w : Nat) (df : List Record) : List Bucket :=
  ((df.map (bucketKey w)).dedup).map fun k => ⟨k, (df.map (bucketKey w)).count k⟩

/-- Modelled from the spec: `generate_traffic_analysis(table)` returns the
minute, hour and day bucket series (spec 6; called at app.py line 51). -/
def generate_traffic_analysis (df : List Record) :
    List Bucket × List Bucket × List Bucket :=
  (bucketize minute_width df, bucketize hour_width df, bucketize day_width df)

/-- Sum of the per-bucket counts of a series. -/
def bucketCountSum (s : List Bucket) : Nat := (s.map Bucket.count).sum

theorem bucketCountSum_bucketize (w : Nat) (df : List Record) :
    bucketCountSum (bucketize w df) = df.length := by
  unfold bucketCountSum bucketize
  rw [List.map_map]
  have h : (Bucket.count ∘ fun k => Bucket.mk k ((df.map (bucketKey w)).count k)) =
      fun k => (df.map (bucketKey w)).count k := rfl
  rw [h, List.sum_map_count_dedup_eq_length, List.length_map]

theorem mem_bucketize_iff (w : Nat) (df : List Record) (b : Bucket) :
    b ∈ bucketize w df ↔
      b.key ∈ (df.map (bucketKey w)).dedup ∧
        b = ⟨b.key, (df.map (bucketKey w)).count b.key⟩ := by
  unfold bucketize
  rw [List.mem_map]
  constructor
  · rintro ⟨k, hk, rfl⟩
    exact ⟨hk, rfl⟩
  · rintro ⟨hk, hb⟩
    exact ⟨b.key, hk, hb.symm⟩

/-- Each record falls in exactly one bucket of each series. -/
theorem exists_unique_bucket (w : Nat) (df : List Record) (r : Record)
    (hr : r ∈ df) :
    ∃! b, b ∈ bucketize w df ∧ b.key = bucketKey w r := by
  refine ⟨⟨bucketKey w r, (df.map (bucketKey w)).count (bucketKey w r)⟩, ⟨?_, rfl⟩, ?_⟩
  · rw [mem_bucketize_iff]
    exact ⟨List.mem_dedup.mpr (List.mem_map_of_mem (bucketKey w) hr), rfl⟩
  · rintro b ⟨hb, hkey⟩
    rw [mem_bucketize_iff] at hb
    rw [hb.2, hkey]

/-- C1: for every input dataset, `generate_traffic_analysis` assigns each
record to exactly one bucket per granularity (minute, hour, day), so at
each granularity the sum of the per-bucket counts equals the total number
of input records. -/
theorem generate_traffic_analysis_partition (df : List Record) :
    bucketCountSum (generate_traffic_analysis df).1 = df.length ∧
    bucketCountSum (generate_traffic_analysis df).2.1 = df.length ∧
    bucketCountSum (generate_traffic_analysis df).2.2 = df.length ∧
    ∀ r ∈ df,
      (∃! b, b ∈ (generate_traffic_analysis df).1 ∧ b.key = bucketKey minute_width r) ∧
      (∃! b, b ∈ (generate_traffic_analysis df).2.1 ∧ b.key = bucketKey hour_width r) ∧
      (∃! b, b ∈ (generate_traffic_analysis df).2.2 ∧ b.key = bucketKey day_width r) := by
  refine ⟨bucketCountSum_bucketize _ _, bucketCountSum_bucketize _ _,
    bucketCountSum_bucketize _ _, fun r hr => ?_⟩
  exact ⟨exists_unique_bucket _ _ _ hr, exists_unique_bucket _ _ _ hr,
    exists_unique_bucket _ _ _ hr⟩

/-- Witness for C1: a concrete three-record dataset, two records in the
same minute, summing to three at every granularity, with the first record
in exactly one minute bucket. -/
theorem generate_traffic_analysis_partition_witness :
    bucketCountSum (generate_traffic_analysis
        [⟨5, 100, "a", "b", 6⟩, ⟨7, 200, "c", "d", 17⟩, ⟨80, 50, "a", "d", 6⟩]).1 =
      (3 : Nat) ∧
    (∃! b, b ∈ (generate_traffic_analysis
        [⟨5, 100, "a", "b", 6⟩, ⟨7, 200, "c", "d", 17⟩, ⟨80, 50, "a", "d", 6⟩]).1 ∧
      b.key = bucketKey minute_width ⟨5, 100, "a", "b", 6⟩) := by
  have h := generate_traffic_analysis_partition
    [⟨5, 100, "a", "b", 6⟩, ⟨7, 200, "c", "d", 17⟩, ⟨80, 50, "a", "d", 6⟩]
  exact ⟨h.1, (h.2.2.2 ⟨5, 100, "a", "b", 6⟩ (by simp)).1⟩

/-! ## Series anomaly detector -/

/-- The fixed z-score multiplier of the series detector (spec 4.3: "a fixed
multiplier k (threshold must be a documented constant, e.g. k=2 or k=3)"). -/
def anomaly_k : ℚ := 3

/-- Mean of the count field over a bucket series. -/
def seriesMean (s : List Bucket) : ℚ :=
  (s.map fun b => (b.count : ℚ)).sum / s.length

/-- Population variance of the count field over a bucket series. -/
def seriesVar (s : List Bucket) : ℚ :=
  (s.map fun b => ((b.count : ℚ) - seriesMean s) ^ 2).sum / s.length

/-- A bucket together with its series anomaly flag. -/
structure FlaggedBucket where
  key : Nat
  count : Nat
  anomaly : Bool
deriving Repr, DecidableEq

/-- Modelled from the spec: `detect_traffic_anomalies(series, count_field)`
(called at app.py lines 53-55) computes mean and standard deviation of the
count field across the whole sequence and marks a bucket anomalous when
|count − μ| > k·σ (spec 4.3).  Over ℚ the comparison is carried out on
squares, which is equivalent for k ≥ 0. -/
def detect_traffic_anomalies (s : List Bucket) (countField : String) :
    List FlaggedBucket :=
  s.map fun b =>
    ⟨b.key, b.count,
      decide (((b.count : ℚ) - seriesMean s) ^ 2 > anomaly_k ^ 2 * seriesVar s)⟩

theorem seriesVar_nonneg (s : List Bucket) : 0 ≤ seriesVar s := by
  unfold seriesVar
  apply div_nonneg
  · apply List.sum_nonneg
    intro x hx
    obtain ⟨b, _, rfl⟩ := List.mem_map.mp hx
    positivity
  · positivity

theorem sq_mul_lt_iff_mul_sqrt_lt_abs (k v x : ℝ) (hk : 0 ≤ k) (hv : 0 ≤ v) :
    k ^ 2 * v < x ^ 2 ↔ k * Real.sqrt v < |x| := by
  have hev : k * Real.sqrt v = Real.sqrt (k ^ 2 * v) := by
    rw [Real.sqrt_mul (sq_nonneg k), Real.sqrt_sq hk]
  rw [hev]
  rcases eq_or_lt_of_le (abs_nonneg x) with h0 | h0
  · have h1 : x ^ 2 = 0 := by rw [← sq_abs, ← h0]; ring
    rw [h1, ← h0]
    constructor
    · intro h
      linarith [mul_nonneg (sq_nonneg k) hv]
    · intro h
      linarith [Real.sqrt_nonneg (k ^ 2 * v)]
  · rw [Real.sqrt_lt' h0, sq_abs]

/-- C2: a bucket is flagged by `detect_traffic_anomalies` exactly when
|count − μ| > k·σ, where μ and σ are the mean and standard deviation of
the count field over the whole series and k is the fixed constant
`anomaly_k`; in particular every constant-count series (σ = 0) has zero
flagged buckets. -/
theorem detect_traffic_anomalies_spec (s : List Bucket) (countField : String) :
    (∀ fb ∈ detect_traffic_anomalies s countField,
        (fb.anomaly = true ↔
          |(fb.count : ℝ) - (seriesMean s : ℝ)| >
            (anomaly_k : ℝ) * Real.sqrt (seriesVar s : ℝ))) ∧
    (∀ c : Nat, (∀ b ∈ s, b.count = c) →
        ∀ fb ∈ detect_traffic_anomalies s countField, fb.anomaly = false) := by
  constructor
  · intro fb hfb
    obtain ⟨b, hb, rfl⟩ := List.mem_map.mp hfb
    have hk : (0 : ℝ) ≤ (anomaly_k : ℝ) := by norm_num [anomaly_k]
    have hv : (0 : ℝ) ≤ (seriesVar s : ℝ) := by exact_mod_cast seriesVar_nonneg s
    have hcast : anomaly_k ^ 2 * seriesVar s < ((b.count : ℚ) - seriesMean s) ^ 2 ↔
        (anomaly_k : ℝ) ^ 2 * (seriesVar s : ℝ) <
          ((b.count : ℝ) - (seriesMean s : ℝ)) ^ 2 := by
      rw [← Rat.cast_lt (K := ℝ)]
      push_cast
      rfl
    show decide _ = true ↔ _
    rw [decide_eq_true_eq]
    show ((b.count : ℚ) - seriesMean s) ^ 2 > anomaly_k ^ 2 * seriesVar s ↔
        |(b.count : ℝ) - (seriesMean s : ℝ)| >
          (anomaly_k : ℝ) * Real.sqrt (seriesVar s : ℝ)
    rw [gt_iff_lt, hcast, sq_mul_lt_iff_mul_sqrt_lt_abs _ _ _ hk hv, gt_iff_lt]
  · intro c hc fb hfb
    obtain ⟨b, hb, rfl⟩ := List.mem_map.mp hfb
    have hpos : 0 < s.length := List.length_pos.mpr (List.ne_nil_of_mem hb)
    have hvar : seriesVar s = ((c : ℚ) - seriesMean s) ^ 2 := by
      unfold seriesVar
      have hall : ∀ x ∈ s.map fun b => ((b.count : ℚ) - seriesMean s) ^ 2,
          x = ((c : ℚ) - seriesMean s) ^ 2 := by
        intro x hx
        obtain ⟨b', hb', rfl⟩ := List.mem_map.mp hx
        rw [hc b' hb']
      rw [List.sum_eq_card_nsmul _ _ hall, List.length_map, nsmul_eq_mul]
      exact mul_div_cancel_left₀ _ (Nat.cast_ne_zero.mpr hpos.ne')
    have hflag : ¬ (((b.count : ℚ) - seriesMean s) ^ 2 > anomaly_k ^ 2 * seriesVar s) := by
      rw [hc b hb, hvar, show (anomaly_k : ℚ) ^ 2 = 9 by norm_num [anomaly_k]]
      intro hgt
      have hd : (0 : ℚ) ≤ ((c : ℚ) - seriesMean s) ^ 2 := sq_nonneg _
      linarith
    exact decide_eq_false hflag

/-- Witness for C2: on the constant series [5, 5] no bucket is flagged. -/
theorem detect_traffic_anomalies_spec_witness :
    (detect_traffic_anomalies [⟨0, 5⟩, ⟨1, 5⟩] "Minute_Request_Count").all
      (fun fb => !fb.anomaly) = true := by
  rw [List.all_eq_true]
  intro fb hfb
  rw [(detect_traffic_anomalies_spec [⟨0, 5⟩, ⟨1, 5⟩] "Minute_Request_Count").2 5
    (by intro b hb; fin_cases hb <;> rfl) fb hfb]
  rfl

/-! ## Packet anomaly detector -/

/-- A record enriched with its derived features, packet anomaly flag and
(after categorization) category label (spec 3: "TrafficRecord ... gains
derived columns (features, flags, category) as it passes through later
stages"). -/
structure Packet where
  record : Record
  freq : Nat
  flag : Bool
  category : Option String
deriving Repr, DecidableEq

/-- Modelled from the spec: the local frequency feature, "count of records
sharing the same source" (spec 4.4). -/
def source_freq (df : List Record) (r : Record) : Nat :=
  df.countP fun x => x.source == r.source

/-- The feature names returned by the packet detector for reporting. -/
def feature_names : List String := ["Length", "Protocol_Code", "Source_Frequency"]

/-- Minimum viable number of records for packet detection (spec 4.4:
"fewer than a minimum viable number of records (e.g., <10) ... flagging
none"). -/
def min_viable_records : Nat := 10

/-- Mean of a numeric feature column. -/
def colMean (col : List ℚ) : ℚ := col.sum / col.length

/-- Population variance of a numeric feature column. -/
def colVar (col : List ℚ) : ℚ := (col.map fun x => (x - colMean col) ^ 2).sum / col.length

/-- The three numeric feature columns derived from the record table. -/
def lengthCol (df : List Record) : List ℚ := df.map fun r => (r.len : ℚ)

def protocolCol (df : List Record) : List ℚ := df.map fun r => (r.protocol : ℚ)

def freqCol (df : List Record) : List ℚ := df.map fun r => (source_freq df r : ℚ)

/-- The per-record outlier decision of the batch model: some feature
deviates from its column mean by more than the fixed threshold. -/
def packet_outlier (df : List Record) (r : Record) : Bool :=
  decide (((r.len : ℚ) - colMean (lengthCol df)) ^ 2 >
      anomaly_k ^ 2 * colVar (lengthCol df)) ||
  decide (((r.protocol : ℚ) - colMean (protocolCol df)) ^ 2 >
      anomaly_k ^ 2 * colVar (protocolCol df)) ||
  decide (((source_freq df r : ℚ) - colMean (freqCol df)) ^ 2 >
      anomaly_k ^ 2 * colVar (freqCol df))

/-- Modelled from the spec: `detect_packet_anomalies(table)` (called at
app.py line 67; the multivariate outlier model itself lives in the missing
notebook).  Stand-in faithful to spec 4.4: derives the numeric features
length, protocol code and same-source frequency, treats the dataset as one
batch, and flags a record as an outlier when some feature deviates from
that feature's mean by more than the fixed threshold (in units of the
feature's standard deviation); with fewer than `min_viable_records`
records it flags none.  Returns the enriched table and the feature
names. -/
def detect_packet_anomalies (df : List Record) : List Packet × List String :=
  (df.map fun r =>
      ⟨r, source_freq df r,
        if df.length < min_viable_records then false else packet_outlier df r, none⟩,
    feature_names)

/-! ## Anomaly categorizer -/

/-- Length bound of the "oversized packet" rule. -/
def oversized_threshold : Nat := 1500

/-- The known-common protocol codes (ICMP, TCP, UDP). -/
def common_protocols : List Nat := [1, 6, 17]

/-- Frequency bound of the "high-frequency source" rule. -/
def high_freq_threshold : Nat := 100

/-- Modelled from the spec: the fixed, ordered rule set of the categorizer
(spec 4.5) — first matching rule wins, unmatched flagged records get the
default label. -/
def categoryFor (p : Packet) : String :=
  if p.record.len > oversized_threshold then "Oversized Packet"
  else if ¬ (p.record.protocol ∈ common_protocols) then "Unusual Protocol"
  else if p.freq > high_freq_threshold then "High-Frequency Source"
  else "Anomalous - Uncategorized"

/-- Modelled from the spec: `categorize_anomalies(table)` (called at
app.py line 68) assigns each flagged record its first matching rule's
category; unflagged records get no category (spec 4.5). -/
def categorize_anomalies (df : List Packet) : List Packet :=
  df.map fun p =>
    if p.flag then { p with category := some (categoryFor p) }
    else { p with category := none }

theorem flag_categorize_aux (p : Packet) :
    (if p.flag then { p with category := some (categoryFor p) }
      else { p with category := none }).flag = p.flag := by
  by_cases h : p.flag <;> simp [h]

/-- C3: categorization assigns exactly one category to every flagged
record and none to an unflagged record, and preserves the flag column, so
the flagged count after `categorize_anomalies` equals the flagged count
from `detect_packet_anomalies`. -/
theorem categorize_anomalies_preserves_flags (df : List Record) :
    (categorize_anomalies (detect_packet_anomalies df).1).countP Packet.flag =
      (detect_packet_anomalies df).1.countP Packet.flag ∧
    ∀ p ∈ categorize_anomalies (detect_packet_anomalies df).1,
      (p.flag = true ↔ p.category = some (categoryFor p)) ∧
      (p.flag = false ↔ p.category = none) := by
  constructor
  · unfold categorize_anomalies
    rw [List.countP_map]
    apply List.countP_congr
    intro p _
    exact (flag_categorize_aux p).symm ▸ Iff.rfl
  · intro p hp
    obtain ⟨q, hq, rfl⟩ := List.mem_map.mp hp
    by_cases h : q.flag <;> simp [h, categoryFor]

/-- Witness for C3: on a one-record table the flagged counts agree and the
(unflagged) packet carries no category. -/
theorem categorize_anomalies_preserves_flags_witness :
    (categorize_anomalies
        (detect_packet_anomalies [⟨0, 100, "a", "b", 6⟩]).1).countP Packet.flag =
      (detect_packet_anomalies [⟨0, 100, "a", "b", 6⟩]).1.countP Packet.flag ∧
    ((⟨⟨0, 100, "a", "b", 6⟩, 1, false, none⟩ : Packet).flag = false ↔
      (⟨⟨0, 100, "a", "b", 6⟩, 1, false, none⟩ : Packet).category = none) := by
  have h := categorize_anomalies_preserves_flags [⟨0, 100, "a", "b", 6⟩]
  exact ⟨h.1, (h.2 ⟨⟨0, 100, "a", "b", 6⟩, 1, false, none⟩ (by decide)).2⟩

/-! ## Report generator -/

/-- Label → count grouping table over a list of labels. -/
def tally (l : List String) : List (String × Nat) :=
  l.dedup.map fun x => (x, l.count x)

theorem tally_sum (l : List String) : ((tally l).map Prod.snd).sum = l.length := by
  unfold tally
  rw [List.map_map]
  have h : (Prod.snd ∘ fun x => (x, l.count x)) = fun x => l.count x := rfl
  rw [h, List.sum_map_count_dedup_eq_length]

/-- Modelled from the spec: the secondary protocol-grouping tag of a
flagged record (spec 3, "AnomalyCategory ... secondary tags for protocol
grouping"). -/
def protocol_category (p : Packet) : String :=
  if p.record.protocol ∈ common_protocols then "Common Protocol" else "Uncommon Protocol"

/-- Modelled from the spec: the secondary source-address-grouping tag of a
flagged record. -/
def source_category (p : Packet) : String :=
  if p.freq > high_freq_threshold then "High-Frequency Source" else "Normal Source"

/-- The category label used in the summary grouping. -/
def categoryLabel (p : Packet) : String :=
  p.category.getD "Anomalous - Uncategorized"

/-- The `anomaly_summary` dict displayed at app.py lines 101-115: keys
`anomalies_detected`, `anomaly_percentage`, `anomaly_categories`,
`protocol_categories`, `source_categories`. -/
structure Summary where
  anomalies_detected : Nat
  anomaly_percentage : ℚ
  anomaly_categories : List (String × Nat)
  protocol_categories : List (String × Nat)
  source_categories : List (String × Nat)
deriving Repr, DecidableEq

/-- Modelled from the spec: `generate_anomaly_report(table, output_dir)`
(called at app.py line 69) computes total and flagged counts, the flagged
percentage (flagged/total × 100), the three grouping tables, and the
outliers-only partition (spec 4.6). -/
def generate_anomaly_report (df : List Packet) (reportsDir : String) :
    Summary × List Packet :=
  (⟨(df.filter Packet.flag).length,
    100 * ((df.filter Packet.flag).length : ℚ) / (df.length : ℚ),
    tally ((df.filter Packet.flag).map categoryLabel),
    tally ((df.filter Packet.flag).map protocol_category),
    tally ((df.filter Packet.flag).map source_category)⟩,
   df.filter Packet.flag)

/-- C4: for every annotated table, `generate_anomaly_report` returns a
summary whose anomaly percentage equals 100 × flagged_count / total_count
and whose grouping tables each sum to flagged_count; when flagged_count
is 0 it returns empty groupings (and an empty outlier partition) without
failing. -/
theorem generate_anomaly_report_spec (df : List Packet) (dir : String) :
    ((generate_anomaly_report df dir).1.anomalies_detected = df.countP Packet.flag) ∧
    ((generate_anomaly_report df dir).1.anomaly_percentage =
      100 * (df.countP Packet.flag : ℚ) / (df.length : ℚ)) ∧
    (((generate_anomaly_report df dir).1.anomaly_categories.map Prod.snd).sum =
      df.countP Packet.flag) ∧
    (((generate_anomaly_report df dir).1.protocol_categories.map Prod.snd).sum =
      df.countP Packet.flag) ∧
    (((generate_anomaly_report df dir).1.source_categories.map Prod.snd).sum =
      df.countP Packet.flag) ∧
    (df.countP Packet.flag = 0 →
      (generate_anomaly_report df dir).1.anomaly_categories = [] ∧
      (generate_anomaly_report df dir).1.protocol_categories = [] ∧
      (generate_anomaly_report df dir).1.source_categories = [] ∧
      (generate_anomaly_report df dir).2 = []) := by
  have hlen : (df.filter Packet.flag).length = df.countP Packet.flag :=
    (List.countP_eq_length_filter Packet.flag df).symm
  refine ⟨hlen, by rw [show (generate_anomaly_report df dir).1.anomaly_percentage =
      100 * ((df.filter Packet.flag).length : ℚ) / (df.length : ℚ) from rfl, hlen],
    ?_, ?_, ?_, ?_⟩
  · show ((tally ((df.filter Packet.flag).map categoryLabel)).map Prod.snd).sum = _
    rw [tally_sum, List.length_map, hlen]
  · show ((tally ((df.filter Packet.flag).map protocol_category)).map Prod.snd).sum = _
    rw [tally_sum, List.length_map, hlen]
  · show ((tally ((df.filter Packet.flag).map source_category)).map Prod.snd).sum = _
    rw [tally_sum, List.length_map, hlen]
  · intro h0
    have hnil : df.filter Packet.flag = [] := by
      rw [← List.length_eq_zero, hlen, h0]
    refine ⟨?_, ?_, ?_, ?_⟩ <;>
      simp only [generate_anomaly_report, hnil, List.map_nil, tally, List.dedup_nil]

/-- Witness for C4: a two-packet table with one flagged packet; the
percentage is 50 and the groupings sum to 1, and on the all-unflagged
table the groupings are empty. -/
theorem generate_anomaly_report_spec_witness :
    ((generate_anomaly_report
        [⟨⟨0, 100, "a", "b", 6⟩, 1, true, some "Oversized Packet"⟩,
         ⟨⟨1, 50, "c", "d", 6⟩, 1, false, none⟩] "output/reports").1.anomaly_percentage =
      100 * (1 : ℚ) / 2) ∧
    (((generate_anomaly_report
        [⟨⟨0, 100, "a", "b", 6⟩, 1, true, some "Oversized Packet"⟩,
         ⟨⟨1, 50, "c", "d", 6⟩, 1, false, none⟩] "output/reports").1.anomaly_categories.map
        Prod.snd).sum = 1) ∧
    ((generate_anomaly_report
        [⟨⟨0, 50, "c", "d", 6⟩, 1, false, none⟩] "output/reports").1.anomaly_categories = []) := by
  have h1 := generate_anomaly_report_spec
    [⟨⟨0, 100, "a", "b", 6⟩, 1, true, some "Oversized Packet"⟩,
     ⟨⟨1, 50, "c", "d", 6⟩, 1, false, none⟩] "output/reports"
  have h2 := generate_anomaly_report_spec
    [⟨⟨0, 50, "c", "d", 6⟩, 1, false, none⟩] "output/reports"
  refine ⟨?_, ?_, ?_⟩
  · rw [h1.2.1]; norm_num
  · rw [h1.2.2.1]; rfl
  · exact (h2.2.2.2.2.2 (by decide)).1

/-! ## Data loader and pipeline orchestration -/

/-- The required columns of the uploaded CSV (app.py lines 143 and 152). -/
def required_columns : List String :=
  ["Time", "Length", "Source", "Destination", "Protocol"]

/-- A raw uploaded table: the header row and the parsed rows. -/
structure RawTable where
  header : List String
  rows : List Record
deriving Repr, DecidableEq

/-- The error taxonomy of spec 7: ValidationError, ProcessingError,
I/OError. -/
inductive PipelineError where
  | validationError (msg : String)
  | processingError (msg : String)
  | ioError (msg : String)
deriving Repr, DecidableEq

def errorMessage : PipelineError → String
  | .validationError m => m
  | .processingError m => m
  | .ioError m => m

/-- Modelled from the spec: `process_traffic_data(path)` (called at app.py
line 50; its code is in the missing notebook) parses the table and "fails
with a ValidationError when required columns are absent" (spec 4.1). -/
def process_traffic_data (t : RawTable) : Except PipelineError (List Record) :=
  match required_columns.find? (fun c => !(t.header.contains c)) with
  | some c => .error (.validationError ("Missing required column: " ++ c))
  | none => .ok t.rows

/-- Everything the processing block of app.py computes and later renders. -/
structure AnalysisResult where
  minuteSeries : List FlaggedBucket
  hourSeries : List FlaggedBucket
  daySeries : List FlaggedBucket
  annotated : List Packet
  featuresUsed : List String
  summary : Summary
  outliers : List Packet
deriving Repr, DecidableEq

/-- The processing pipeline of app.py lines 49-69, in order: load,
aggregate, series detection at the three granularities, packet detection,
categorization, report. -/
def runAnalysis (t : RawTable) : Except PipelineError AnalysisResult := do
  let df ← process_traffic_data t
  let series := generate_traffic_analysis df
  let m := detect_traffic_anomalies series.1 "Minute_Request_Count"
  let h := detect_traffic_anomalies series.2.1 "Hourly_Request_Count"
  let d := detect_traffic_anomalies series.2.2 "Daily_Request_Count"
  let pk := detect_packet_anomalies df
  let annotated := categorize_anomalies pk.1
  let report := generate_anomaly_report annotated "output/reports"
  pure ⟨m, h, d, annotated, pk.2, report.1, report.2⟩

/-- The fixed guidance line of the catch-all handler (app.py line 143). -/
def guidance_message : String :=
  "Please make sure your CSV file has the required columns: Time, Length, Source, Destination, Protocol"

/-- What the user sees: the rendered result tabs, or the error banner plus
the guidance line. -/
inductive Display where
  | success (res : AnalysisResult)
  | failure (errorLine : String) (guidanceLine : String)
deriving Repr, DecidableEq

/-- The try/except of app.py lines 39-143: a successful run renders the
result tabs; any exception reaches the single catch-all handler, which
shows the exception text and the fixed guidance (app.py lines 141-143). -/
def renderResult : Except PipelineError AnalysisResult → Display
  | .ok r => .success r
  | .error e =>
      .failure ("An error occurred during processing: " ++ errorMessage e)
        guidance_message

def displayGuidance : Display → Option String
  | .success _ => none
  | .failure _ g => some g

/-- C5: for every input whose header lacks the `Protocol` column, the
loader fails with a ValidationError, the whole pipeline short-circuits to
that error (no aggregation result is produced), and the error is rendered
to the user as a visible message rather than swallowed. -/
theorem process_traffic_data_missing_protocol (t : RawTable)
    (h : "Protocol" ∉ t.header) :
    ∃ msg, process_traffic_data t = .error (.validationError msg) ∧
      runAnalysis t = .error (.validationError msg) ∧
      renderResult (runAnalysis t) =
        .failure ("An error occurred during processing: " ++ msg) guidance_message := by
  cases hfind : required_columns.find? (fun c => !(t.header.contains c)) with
  | none =>
    exfalso
    have hall := List.find?_eq_none.mp hfind "Protocol" (by decide)
    simp only [Bool.not_eq_true', Bool.not_eq_false] at hall
    exact h (by simpa using hall)
  | some c =>
    have hproc : process_traffic_data t =
        .error (.validationError ("Missing required column: " ++ c)) := by
      unfold process_traffic_data
      rw [hfind]
    refine ⟨"Missing required column: " ++ c, hproc, ?_, ?_⟩
    · show (process_traffic_data t).bind _ = _
      rw [hproc]
      rfl
    · show renderResult ((process_traffic_data t).bind _) = _
      rw [hproc]
      rfl

/-- Witness for C5: a header with every required column except `Protocol`
produces the ValidationError display. -/
theorem process_traffic_data_missing_protocol_witness :
    (process_traffic_data ⟨["Time", "Length", "Source", "Destination"], []⟩).isOk = false := by
  obtain ⟨msg, hproc, -, -⟩ := process_traffic_data_missing_protocol
    ⟨["Time", "Length", "Source", "Destination"], []⟩ (by decide)
  rw [hproc]
  rfl

/-- C6: the pipeline is deterministic — two runs on the same input with
the same fixed constants produce identical results (bucket series, flags,
summary) and an identical display. -/
theorem pipeline_deterministic (t1 t2 : RawTable) (h : t1 = t2) :
    runAnalysis t1 = runAnalysis t2 ∧
    renderResult (runAnalysis t1) = renderResult (runAnalysis t2) := by
  subst h
  exact ⟨rfl, rfl⟩

/-- Witness for C6: two runs on a concrete one-record table agree. -/
theorem pipeline_deterministic_witness :
    runAnalysis ⟨required_columns, [⟨0, 100, "a", "b", 6⟩]⟩ =
      runAnalysis ⟨required_columns, [⟨0, 100, "a", "b", 6⟩]⟩ :=
  (pipeline_deterministic ⟨required_columns, [⟨0, 100, "a", "b", 6⟩]⟩
    ⟨required_columns, [⟨0, 100, "a", "b", 6⟩]⟩ rfl).1

/-- C9: every pipeline error — validation, processing or I/O — is
rendered by the one catch-all handler as the exception text plus the same
fixed guidance about the required columns, so the visible output does not
distinguish a schema error from any other failure type. -/
theorem catch_all_handler_uniform (e1 e2 : PipelineError) :
    renderResult (Except.error e1) =
      Display.failure ("An error occurred during processing: " ++ errorMessage e1)
        guidance_message ∧
    displayGuidance (renderResult (Except.error e1)) =
      displayGuidance (renderResult (Except.error e2)) := by
  cases e1 <;> cases e2 <;> exact ⟨rfl, rfl⟩

/-! ## Output locations and the file-system effects of a run

`run` numbers successive analysis runs; app.py computes its paths without
any run-dependent component (lines 58-62: `output_dir = "output"`,
`plots_dir = os.path.join(output_dir, "plots")`,
`reports_dir = os.path.join(output_dir, "reports")`). -/

def output_dir (run : Nat) : String := "output"

def plots_dir (run : Nat) : String := output_dir run ++ "/plots"

def reports_dir (run : Nat) : String := output_dir run ++ "/reports"

/-- The plot artifacts a run writes (app.py lines 64-65, displayed at
lines 89-121): fixed file names under the run's plots directory. -/
def artifact_paths (run : Nat) : List String :=
  [plots_dir run ++ "/minute_traffic.png",
   plots_dir run ++ "/hour_traffic.png",
   plots_dir run ++ "/day_traffic.png",
   plots_dir run ++ "/minute_anomalies.png",
   plots_dir run ++ "/hour_anomalies.png"]

/-- C7 counterexample: two distinct runs share the same output location
and the same artifact paths, so the artifacts of one run are not kept
apart from the other's. -/
theorem output_location_not_fresh :
    (0 : Nat) ≠ 1 ∧ output_dir 0 = output_dir 1 ∧
      artifact_paths 0 = artifact_paths 1 :=
  ⟨by decide, rfl, rfl⟩

/-- C7 (amended): every analysis run writes its artifacts into the same
fixed output location `output`, with run-independent file names, so a
later run overwrites the artifacts of an earlier run instead of using a
fresh directory per run. -/
theorem output_location_fixed (run : Nat) :
    output_dir run = "output" ∧ plots_dir run = "output/plots" ∧
    reports_dir run = "output/reports" ∧
    artifact_paths run = artifact_paths 0 :=
  ⟨rfl, rfl, rfl, rfl⟩

/-- The fixed temporary path the upload is saved to (app.py line 41). -/
def temp_file_name : String := "temp_upload.csv"

/-- `os.remove` guarded by `os.path.exists` (app.py lines 147-148). -/
def removeFile (fs : List String) (f : String) : List String :=
  if f ∈ fs then fs.filter (fun x => x != f) else fs

theorem not_mem_removeFile (fs : List String) (f : String) :
    f ∉ removeFile fs f := by
  unfold removeFile
  split
  · simp [List.mem_filter]
  · next hmem => exact hmem

/-- The file-system effect of one run of the app (app.py lines 38-148):
save the upload to the fixed temporary path, run the pipeline (the
successful path also writes the plot artifacts), and in the `finally`
block remove the temporary file if it exists — on the success and the
failure path alike. -/
def appRun (run : Nat) (fs0 : List String) (t : RawTable) :
    Display × List String :=
  let fs1 := temp_file_name :: fs0
  let res := runAnalysis t
  let fs2 := match res with
    | .ok _ => artifact_paths run ++ fs1
    | .error _ => fs1
  (renderResult res, removeFile fs2 temp_file_name)

/-- C8: on every exit path of a run — success or failure — the temporary
upload file is absent from the final file system. -/
theorem temp_file_removed (run : Nat) (fs0 : List String) (t : RawTable) :
    temp_file_name ∉ (appRun run fs0 t).2 :=
  not_mem_removeFile _ _

/-- Witness for C8: the temporary file is gone after a concrete failing
run (missing `Protocol` column) and after a concrete successful run. -/
theorem temp_file_removed_witness :
    temp_file_name ∉ (appRun 0 [] ⟨["Time"], []⟩).2 ∧
    temp_file_name ∉ (appRun 0 [] ⟨required_columns, [⟨0, 100, "a", "b", 6⟩]⟩).2 :=
  ⟨temp_file_removed 0 [] ⟨["Time"], []⟩,
   temp_file_removed 0 [] ⟨required_columns, [⟨0, 100, "a", "b", 6⟩]⟩⟩

/-! ## Notebook loader -/

/-- A notebook cell: its type and the names executing its source would
define. -/
structure NotebookCell where
  cell_type : String
  definedNames : List String
deriving Repr, DecidableEq

/-- `load_ipynb_module` (app.py lines 10-22): for each cell of the
notebook, if the cell's type is 'code', execute its source in the
module's global namespace — abstracted as adding the names the source
defines to the environment.  No other cell is executed and nothing checks
which names were defined. -/
def load_ipynb_module (cells : List NotebookCell) (globalsEnv : List String) :
    List String :=
  cells.foldl
    (fun g c => if c.cell_type = "code" then g ++ c.definedNames else g) globalsEnv

/-- A Python name lookup at a call site; an undefined name raises
NameError. -/
inductive CallResult where
  | ok
  | nameError (name : String)
deriving Repr, DecidableEq

def callFunction (env : List String) (name : String) : CallResult :=
  if name ∈ env then .ok else .nameError name

/-- The first analysis function the pipeline calls (app.py line 50). -/
def first_pipeline_function : String := "process_traffic_data"

theorem mem_load_ipynb_module (cells : List NotebookCell) (env : List String)
    (n : String) :
    n ∈ load_ipynb_module cells env ↔
      n ∈ env ∨ ∃ c ∈ cells, c.cell_type = "code" ∧ n ∈ c.definedNames := by
  induction cells generalizing env with
  | nil => simp [load_ipynb_module]
  | cons c cs ih =>
    unfold load_ipynb_module
    rw [List.foldl_cons]
    by_cases hc : c.cell_type = "code"
    · rw [if_pos hc]
      rw [show List.foldl _ (env ++ c.definedNames) cs =
        load_ipynb_module cs (env ++ c.definedNames) from rfl, ih]
      simp only [List.mem_append, List.mem_cons]
      constructor
      · rintro ((hn | hn) | ⟨c', hc', hcode, hn⟩)
        · exact Or.inl hn
        · exact Or.inr ⟨c, Or.inl rfl, hc, hn⟩
        · exact Or.inr ⟨c', Or.inr hc', hcode, hn⟩
      · rintro (hn | ⟨c', (rfl | hc'), hcode, hn⟩)
        · exact Or.inl (Or.inl hn)
        · exact Or.inl (Or.inr hn)
        · exact Or.inr ⟨c', hc', hcode, hn⟩
    · rw [if_neg hc]
      rw [show List.foldl _ env cs = load_ipynb_module cs env from rfl, ih]
      simp only [List.mem_cons]
      constructor
      · rintro (hn | ⟨c', hc', hcode, hn⟩)
        · exact Or.inl hn
        · exact Or.inr ⟨c', Or.inr hc', hcode, hn⟩
      · rintro (hn | ⟨c', (rfl | hc'), hcode, hn⟩)
        · exact Or.inl hn
        · exact absurd hcode hc
        · exact Or.inr ⟨c', hc', hcode, hn⟩

/-- C10: the loader executes exactly the cells of type 'code' (a name is
in the loaded namespace iff it was there before or a code cell defines
it), performs no check that the required analysis functions exist, and a
notebook missing `process_traffic_data` causes a NameError at the first
call site during processing rather than a load-time failure. -/
theorem load_ipynb_module_spec (cells : List NotebookCell) (env : List String) :
    (∀ n, n ∈ load_ipynb_module cells env ↔
        n ∈ env ∨ ∃ c ∈ cells, c.cell_type = "code" ∧ n ∈ c.definedNames) ∧
    (first_pipeline_function ∉ load_ipynb_module cells env →
      callFunction (load_ipynb_module cells env) first_pipeline_function =
        .nameError "process_traffic_data") := by
  refine ⟨fun n => mem_load_ipynb_module cells env n, fun h => ?_⟩
  unfold callFunction
  rw [if_neg h]
  rfl

/-- Witness for C10: a notebook whose markdown cell mentions
`process_traffic_data` but whose only code cell defines something else:
loading succeeds, the markdown cell is not executed, and the first
pipeline call raises NameError. -/
theorem load_ipynb_module_spec_witness :
    callFunction
        (load_ipynb_module
          [⟨"markdown", ["process_traffic_data"]⟩,
           ⟨"code", ["generate_traffic_analysis"]⟩] [])
        first_pipeline_function = .nameError "process_traffic_data" :=
  (load_ipynb_module_spec
    [⟨"markdown", ["process_traffic_data"]⟩,
     ⟨"code", ["generate_traffic_analysis"]⟩] []).2 (by decide)

end TrafficApp
